import Mathlib

/-!
Verification development for the WorkPlatform backend
(`backend/logic.py`, `backend/api.py`, `backend/models.py`, `backend/schemas.py`).

Datetimes are modelled as `Int` seconds since an arbitrary epoch
(`timedelta(hours=h)` becomes `h * 3600`); the current wall clock
(`datetime.now(timezone.utc)`) is passed explicitly as a `now` parameter.
HTTP errors (`HTTPException`) are modelled by the `ApiError` type, and
fallible endpoints return `Except ApiError`.  Enumerations that the source
validates out of wire strings (`normalize_ticket_status`,
`normalize_ticket_priority`, `normalize_ticket_category`) are modelled as
closed inductive types, so that payloads carry already-validated values.
-/

deriving instance DecidableEq for Except

namespace WorkPlatform

/-- Ticket status values (`TICKET_STATUS_VALUES` in `logic.py`). -/
inductive TicketStatus
  | new
  | triaged
  | in_progress
  | waiting_user
  | blocked
  | resolved
  | closed
  | reopened
deriving DecidableEq, Repr, Fintype

/-- Ticket priority values (`TICKET_PRIORITY_VALUES` in `logic.py`). -/
inductive TicketPriority
  | low
  | medium
  | high
  | critical
deriving DecidableEq, Repr, Fintype

/-- Ticket category values (`TICKET_CATEGORY_VALUES` in `logic.py`). -/
inductive TicketCategory
  | printer
  | help
  | network
  | software
  | hardware
  | access
deriving DecidableEq, Repr

/-- User roles (`UserRole` in `models.py`). -/
inductive UserRole
  | admin
  | developer
  | user
deriving DecidableEq, Repr

/-- The slice of `models.User` the ticket logic needs. -/
structure User where
  id : String
  role : UserRole
deriving DecidableEq, Repr

/-- `db.get(User, user_id)`: look a user up by id. -/
def find_user (users : List User) (user_id : String) : Option User :=
  users.find? (fun u => u.id = user_id)

/-- Python `str.strip()`: drop whitespace from both ends. -/
def py_strip (s : String) : String :=
  String.mk (((s.toList.dropWhile Char.isWhitespace).reverse.dropWhile Char.isWhitespace).reverse)

/-- Python `str.upper()` (character-wise upper-casing). -/
def str_upper (s : String) : String := String.mk (s.toList.map Char.toUpper)

/-- Python `str.lower()` (character-wise lower-casing). -/
def str_lower (s : String) : String := String.mk (s.toList.map Char.toLower)

/-- Errors raised as `HTTPException` in the source, keyed by the spec's
error taxonomy (section 7).  `invalidTransition` is
`HTTPException(400, "invalid transition {current}->{target}")`;
`invalidAssignee` is `HTTPException(400, "Assignee must be admin or developer")`;
`notFound`/`forbidden`/`validationError` carry the source's detail string. -/
inductive ApiError
  | notFound (detail : String)
  | invalidTransition (current target : TicketStatus)
  | forbidden (detail : String)
  | invalidAssignee
  | validationError (detail : String)
deriving DecidableEq, Repr

/-- `TICKET_RESOLUTION_STATUSES` in `logic.py`. -/
def TICKET_RESOLUTION_STATUSES : List TicketStatus := [.resolved, .closed]

/-- `TICKET_TRANSITIONS` in `logic.py` (lines 189-198). -/
def TICKET_TRANSITIONS : TicketStatus → List TicketStatus
  | .new => [.triaged, .in_progress, .blocked, .resolved]
  | .triaged => [.in_progress, .waiting_user, .blocked, .resolved]
  | .in_progress => [.waiting_user, .blocked, .resolved]
  | .waiting_user => [.in_progress, .blocked, .resolved]
  | .blocked => [.triaged, .in_progress, .waiting_user, .resolved]
  | .resolved => [.closed, .reopened]
  | .closed => [.reopened]
  | .reopened => [.triaged, .in_progress, .waiting_user, .blocked, .resolved]

/-- `validate_ticket_transition` in `logic.py` (lines 384-389). -/
def validate_ticket_transition (current target : TicketStatus) : Except ApiError Unit :=
  if current = target then .ok ()
  else if target ∈ TICKET_TRANSITIONS current then .ok ()
  else .error (.invalidTransition current target)

/-- `TICKET_FIRST_RESPONSE_SLA_HOURS` in `logic.py`. -/
def TICKET_FIRST_RESPONSE_SLA_HOURS : TicketPriority → Int
  | .low => 24
  | .medium => 8
  | .high => 2
  | .critical => 1

/-- `TICKET_RESOLUTION_SLA_HOURS` in `logic.py`. -/
def TICKET_RESOLUTION_SLA_HOURS : TicketPriority → Int
  | .low => 72
  | .medium => 24
  | .high => 8
  | .critical => 4

/-- `timedelta(hours=h)` as seconds. -/
def hoursToSeconds (h : Int) : Int := h * 3600

/-- `calculate_ticket_deadlines` in `logic.py` (lines 392-395). -/
def calculate_ticket_deadlines (priority : TicketPriority) (created_at : Int) : Int × Int :=
  (created_at + hoursToSeconds (TICKET_FIRST_RESPONSE_SLA_HOURS priority),
   created_at + hoursToSeconds (TICKET_RESOLUTION_SLA_HOURS priority))

/-- Stored ticket evidence item: one element of the `evidence_json` list
(the normalized shape written by `patch_ticket` in `api.py`). -/
structure EvidenceItem where
  id : String
  text : String
  imageData : Option String
  imageName : Option String
  createdAt : String
deriving DecidableEq, Repr

/-- The `models.Ticket` row (fields relevant to the ticket logic). -/
structure Ticket where
  id : String
  requester_id : String
  title : String
  description : String
  category : TicketCategory
  priority : TicketPriority
  status : TicketStatus
  resolution : String
  process_notes : String
  evidence : List EvidenceItem
  fixed_by_id : Option String
  assignee_id : Option String
  first_response_due_at : Option Int
  resolution_due_at : Option Int
  first_responded_at : Option Int
  resolved_at : Option Int
  closed_at : Option Int
  created_at : Int
  updated_at : Int
deriving DecidableEq, Repr

/-- `compute_ticket_sla_state` in `logic.py` (lines 398-409), with
`datetime.now(timezone.utc)` passed in as `now`. -/
def compute_ticket_sla_state (ticket : Ticket) (now : Int) : String :=
  if ticket.status ∈ TICKET_RESOLUTION_STATUSES then "completed"
  else
    match ticket.resolution_due_at with
    | none => "on_track"
    | some due =>
      if due ≤ now then "breached"
      else if due ≤ now + hoursToSeconds 2 then "at_risk"
      else "on_track"

/-- `TicketEvent.payload_json` contents as written by the three producers in
`api.py`: `created` logs `{status, priority, category}`, `updated` logs
`{previousStatus, status, assigneeId}`, `assigned` logs `{assigneeId}`. -/
inductive TicketEventPayload
  | createdP (status : TicketStatus) (priority : TicketPriority) (category : TicketCategory)
  | updatedP (previousStatus : TicketStatus) (status : TicketStatus) (assigneeId : Option String)
  | assignedP (assigneeId : Option String)
deriving DecidableEq, Repr

/-- A `models.TicketEvent` row as produced by `log_ticket_event`. -/
structure TicketEvent where
  actor_id : Option String
  event_type : String
  payload : TicketEventPayload
deriving DecidableEq, Repr

/-- `validate_assignment_permission` in `logic.py` (lines 432-439). -/
def validate_assignment_permission (current_user : User) (assignee_id : Option String) :
    Except ApiError Unit :=
  if current_user.role = .admin then .ok ()
  else if current_user.role = .developer then
    if assignee_id = none ∨ assignee_id = some current_user.id then .ok ()
    else .error (.forbidden "Developers can only assign tickets to themselves")
  else .error (.forbidden "Only admin or developer can assign tickets")

/-- `schemas.TicketIn` (payload of `POST /api/tickets`); `description`,
`category` and `priority` default to `""`, `help`, `medium` when omitted. -/
structure TicketIn where
  title : String
  description : String
  category : TicketCategory
  priority : TicketPriority
deriving DecidableEq, Repr

/-- `create_ticket` in `api.py` (lines 1580-1609).  The fresh row id is
passed in as `ticket_id`; `resolution` starts at the `models.Ticket` column
default `""`. -/
def create_ticket (current_user : User) (payload : TicketIn) (now : Int) (ticket_id : String) :
    Ticket × TicketEvent :=
  let deadlines := calculate_ticket_deadlines payload.priority now
  let ticket : Ticket :=
    { id := ticket_id
      requester_id := current_user.id
      title := payload.title
      description := payload.description
      category := payload.category
      priority := payload.priority
      status := .new
      resolution := ""
      process_notes := ""
      evidence := []
      fixed_by_id := none
      assignee_id := none
      first_response_due_at := some deadlines.1
      resolution_due_at := some deadlines.2
      first_responded_at := none
      resolved_at := none
      closed_at := none
      created_at := now
      updated_at := now }
  (ticket,
   { actor_id := some current_user.id
     event_type := "created"
     payload := .createdP ticket.status payload.priority payload.category })

/-- `schemas.TicketEvidenceIn`: one request evidence item. -/
structure TicketEvidenceIn where
  id : String
  text : String
  imageData : Option String
  imageName : Option String
  createdAt : Option String
deriving DecidableEq, Repr

/-- `schemas.TicketPatchIn` (lines 163-168).  Note that `resolution` is a
plain `str` defaulting to `""`, unlike the other optional fields: a request
that omits `resolution` parses to `resolution = ""`. -/
structure TicketPatchIn where
  status : Option TicketStatus
  assigneeId : Option String
  resolution : String
  processNotes : Option String
  evidence : Option (List TicketEvidenceIn)
deriving Repr

/-- The assignee block of `patch_ticket` in `api.py` (lines 1675-1686):
`payload.assigneeId is None` means "leave unchanged", `""` means unassign. -/
def patch_assignee (users : List User) (current_user : User) (t : Ticket) :
    Option String → Except ApiError Ticket
  | none => .ok t
  | some aid =>
    let requested_assignee_id : Option String := if aid = "" then none else some aid
    match validate_assignment_permission current_user requested_assignee_id with
    | .error e => .error e
    | .ok _ =>
      if aid = "" then .ok { t with assignee_id := none }
      else
        match find_user users aid with
        | none => .error (.notFound "Assignee not found")
        | some assignee =>
          if assignee.role = .admin ∨ assignee.role = .developer then
            .ok { t with assignee_id := some assignee.id }
          else .error .invalidAssignee

/-- Normalization of one evidence item in `patch_ticket` (lines 1690-1703).
`freshId` stands for the `str(uuid.uuid4())` drawn when the item id is blank;
`nowIso` stands for `to_iso(datetime.now(timezone.utc))`.  Python truthiness
of the optional strings (`if item.imageData`, `item.createdAt or ...`) makes
the empty string behave like `None`. -/
def normalize_evidence_item (nowIso freshId : String) (item : TicketEvidenceIn) :
    Except ApiError EvidenceItem :=
  let image_data : Option String :=
    match item.imageData with
    | none => none
    | some s => if s = "" then none else some (py_strip s)
  if (match image_data with
      | some d => d != "" && !(d.startsWith "data:image/")
      | none => false) then
    .error (.validationError "evidence imageData must be a data:image/* URL")
  else
    .ok { id := if py_strip item.id = "" then freshId else py_strip item.id
          text := py_strip item.text
          imageData := image_data
          imageName :=
            match item.imageName with
            | none => none
            | some s => if s = "" then none else some (py_strip s)
          createdAt :=
            match item.createdAt with
            | none => nowIso
            | some s => if s = "" then nowIso else s }

/-- The evidence loop of `patch_ticket`: normalize each item in order,
failing on the first invalid `imageData`.  `freshIds i` is the uuid drawn
for the `i`-th item when needed. -/
def normalize_evidence (nowIso : String) (freshIds : Nat → String) :
    List TicketEvidenceIn → Nat → Except ApiError (List EvidenceItem)
  | [], _ => .ok []
  | item :: rest, i =>
    match normalize_evidence_item nowIso (freshIds i) item with
    | .error e => .error e
    | .ok v =>
      match normalize_evidence nowIso freshIds rest (i + 1) with
      | .error e => .error e
      | .ok vs => .ok (v :: vs)

/-- The `processNotes` and `evidence` blocks of `patch_ticket` in `api.py`
(lines 1687-1704): overwrite `process_notes` when supplied; normalize and
store the evidence list when supplied, rejecting non-`data:image/*` image
payloads. -/
def patch_notes_evidence (t2 : Ticket) (processNotes : Option String)
    (evidence : Option (List TicketEvidenceIn)) (nowIso : String) (freshIds : Nat → String) :
    Except ApiError Ticket :=
  let t3 :=
    match processNotes with
    | some notes => { t2 with process_notes := notes }
    | none => t2
  match evidence with
  | none => .ok t3
  | some items =>
    match normalize_evidence nowIso freshIds items 0 with
    | .error e => .error e
    | .ok vs => .ok { t3 with evidence := vs }

/-- The timestamp / fixed-by block of `patch_ticket` in `api.py`
(lines 1705-1717): entering `in_progress`/`triaged` stamps the first
response once, `resolved` stamps `resolved_at` and clears `closed_at`,
`closed` stamps `closed_at`, `reopened` clears both; `updated_at` is
refreshed and `fixed_by_id` is set to the actor iff the new status is in
`{in_progress, resolved, closed}`, else cleared. -/
def patch_status_side_effects (current_user : User) (t4 : Ticket) (now : Int) : Ticket :=
  let t5 :=
    if (t4.status = .in_progress ∨ t4.status = .triaged) ∧ t4.first_responded_at = none
    then { t4 with first_responded_at := some now } else t4
  let t6 :=
    if t5.status = .resolved then { t5 with resolved_at := some now, closed_at := none }
    else t5
  let t7 := if t6.status = .closed then { t6 with closed_at := some now } else t6
  let t8 :=
    if t7.status = .reopened then { t7 with resolved_at := none, closed_at := none }
    else t7
  let t9 := { t8 with updated_at := now }
  { t9 with fixed_by_id :=
      if t9.status = .in_progress ∨ t9.status = .resolved ∨ t9.status = .closed
      then some current_user.id else none }

/-- `patch_ticket` in `api.py` (lines 1664-1731), on a ticket that resolved
(the 404 lookup is outside this model).  Returns the updated row together
with the `updated` TicketEvent appended in the same transaction. -/
def patch_ticket (users : List User) (current_user : User) (ticket : Ticket)
    (payload : TicketPatchIn) (now : Int) (nowIso : String) (freshIds : Nat → String) :
    Except ApiError (Ticket × TicketEvent) :=
  let next_status := payload.status.getD ticket.status
  match validate_ticket_transition ticket.status next_status with
  | .error e => .error e
  | .ok _ =>
    let previous_status := ticket.status
    let t1 := { ticket with status := next_status, resolution := payload.resolution }
    match patch_assignee users current_user t1 payload.assigneeId with
    | .error e => .error e
    | .ok t2 =>
      match patch_notes_evidence t2 payload.processNotes payload.evidence nowIso freshIds with
      | .error e => .error e
      | .ok t4 =>
        let t10 := patch_status_side_effects current_user t4 now
        .ok (t10,
             { actor_id := some current_user.id
               event_type := "updated"
               payload := .updatedP previous_status t10.status t10.assignee_id })

/-- `assign_ticket` in `api.py` (lines 1734-1753), on a ticket that resolved. -/
def assign_ticket (users : List User) (current_user : User) (ticket : Ticket)
    (assigneeId : Option String) (now : Int) : Except ApiError (Ticket × TicketEvent) :=
  match validate_assignment_permission current_user assigneeId with
  | .error e => .error e
  | .ok _ =>
    match (match assigneeId with
           | none => .ok { ticket with assignee_id := none }
           | some aid =>
             match find_user users aid with
             | none => .error (.notFound "Assignee not found")
             | some assignee =>
               if assignee.role = .admin ∨ assignee.role = .developer then
                 .ok { ticket with assignee_id := some assignee.id }
               else .error .invalidAssignee :
           Except ApiError Ticket) with
    | .error e => .error e
    | .ok t1 =>
      let t2 := { t1 with updated_at := now }
      .ok (t2,
           { actor_id := some current_user.id
             event_type := "assigned"
             payload := .assignedP t2.assignee_id })

/-! ## Asset registry (`logic.py` tag/QR helpers, `api.py` `update_asset`) -/

/-- `UNASSIGNED_USER_LABEL` in `logic.py`. -/
def UNASSIGNED_USER_LABEL : String := "Unassigned"

/-- `normalize_assigned_user` in `logic.py` (lines 355-357). -/
def normalize_assigned_user (value : Option String) : String :=
  let assigned := py_strip (value.getD "")
  if assigned = "" then UNASSIGNED_USER_LABEL else assigned

/-- `int(...)` on a digit string. -/
def digitsToNat (s : List Char) : Nat :=
  s.foldl (fun acc c => 10 * acc + (c.toNat - 48)) 0

/-- `re.match(r"^TDC-(\d{4,})$", (tag or "").strip(), re.IGNORECASE)` followed by
`int(match.group(1))`: `some n` iff the stripped tag is `TDC-` (case-insensitive)
followed by at least four digits, `n` the numeric suffix. -/
def parse_asset_tag (tag : String) : Option Nat :=
  let s := (py_strip tag).toList
  if (s.take 4).map Char.toUpper = "TDC-".toList ∧ 4 ≤ (s.drop 4).length
      ∧ (s.drop 4).all Char.isDigit then
    some (digitsToNat (s.drop 4))
  else none

/-- Python `f"{n:04d}"`: decimal digits left-padded with zeros to width 4. -/
def pad4 (n : Nat) : String :=
  let s := toString n
  if s.length < 4 then String.mk (List.replicate (4 - s.length) '0') ++ s else s

/-- Python `f"{n:02d}"`: decimal digits left-padded with zeros to width 2. -/
def pad2 (n : Nat) : String :=
  let s := toString n
  if s.length < 2 then String.mk (List.replicate (2 - s.length) '0') ++ s else s

/-- `build_next_asset_tag` in `logic.py` (lines 217-228); `tags` is the list of
all stored `Asset.asset_tag` values. -/
def build_next_asset_tag (tags : List String) : String :=
  let highest := tags.foldl (fun highest tag =>
    match parse_asset_tag tag with
    | none => highest
    | some value => if highest < value then value else highest) 0
  "TDC-" ++ pad4 (highest + 1)

/-- Specification-side reading of section 4.4 (`nextAssetTag`): "takes the
maximum numeric suffix seen across the whole table".  Used to compare
`build_next_asset_tag` against the spec's wording. -/
def spec_max_tag_suffix (tags : List String) : Nat :=
  (tags.filterMap parse_asset_tag).foldr max 0

/-- `normalize_qr_class` in `logic.py` (lines 231-235); `(value or "A")` turns
both `None` and `""` into `"A"`. -/
def normalize_qr_class (value : Option String) : Except ApiError String :=
  let base := match value with
    | none => "A"
    | some s => if s = "" then "A" else s
  let qr_class := str_upper (py_strip base)
  if qr_class = "A" ∨ qr_class = "B" ∨ qr_class = "C" then .ok qr_class
  else .error (.validationError "qrClass must be A|B|C")

/-- `build_qr_code_from_asset_tag` in `logic.py` (lines 238-245);
`year` models `datetime.now(timezone.utc).year`. -/
def build_qr_code_from_asset_tag (asset_tag : String) (qr_class : String) (year : Nat) :
    Except ApiError String :=
  match parse_asset_tag asset_tag with
  | none => .error (.validationError "assetTag must match TDC-####")
  | some consecutive =>
    let current_year := year % 100
    .ok ("TDC-" ++ pad2 current_year ++ "-" ++ pad4 consecutive ++ "-" ++ qr_class)

/-- The `models.Asset` row (fields relevant to `update_asset`). -/
structure Asset where
  id : String
  owner_id : String
  asset_tag : String
  name : String
  qr_code : String
  location : String
  serial_number : String
  category : String
  manufacturer : String
  model : String
  supplier : String
  status : String
  assigned_to : String
  purchase_date : Option Int
  warranty_until : Option Int
  notes : String
  user_name : String
  condition : String
  created_at : Int
  updated_at : Int
deriving DecidableEq, Repr

/-- `schemas.AssetIn` (all fields default to `""` except `qrClass = "A"` and
`status = "active"`). -/
structure AssetIn where
  assetTag : String
  qrCode : String
  qrClass : String
  location : String
  serialNumber : String
  category : String
  manufacturer : String
  model : String
  supplier : String
  status : String
  user : String
  condition : String
  notes : String
deriving DecidableEq, Repr

/-- One entry of the `changes` payload of an `updated` AssetEvent:
`field: {before, after}`. -/
structure FieldChange where
  field : String
  before : String
  after : String
deriving DecidableEq, Repr

/-- An `updated` `models.AssetEvent` row as produced by `update_asset`
(payload `{"changes": changes}`). -/
structure AssetEvent where
  actor_id : Option String
  event_type : String
  changes : List FieldChange
deriving DecidableEq, Repr

/-- The `previous`/`current` snapshot dict built in `update_asset`
(`api.py` lines 1132-1144 and 1162-1174), in insertion order. -/
def asset_update_snapshot (a : Asset) : List (String × String) :=
  [("qrCode", a.qr_code),
   ("location", a.location),
   ("serialNumber", a.serial_number),
   ("category", a.category),
   ("manufacturer", a.manufacturer),
   ("model", a.model),
   ("supplier", a.supplier),
   ("status", a.status),
   ("user", a.user_name),
   ("condition", a.condition),
   ("notes", a.notes)]

/-- The `changes` dict comprehension in `update_asset` (lines 1175-1179):
keys of `current` (same keys, same order as `previous`) whose value differs. -/
def asset_changes (previous current : List (String × String)) : List FieldChange :=
  (List.zip previous current).filterMap (fun pc =>
    if pc.1.2 ≠ pc.2.2 then some { field := pc.2.1, before := pc.1.2, after := pc.2.2 }
    else none)

/-- The field assignments of `update_asset` (`api.py` lines 1146-1161):
`name` falls back from model to upper-cased serial to the tag (Python `or`
chain on truthiness), the QR code is the recomputed value, text fields are
stripped (serial upper-cased), purchase/warranty dates are cleared and
`updated_at` refreshed. -/
def asset_update_apply (item : Asset) (payload : AssetIn) (status_value assigned_user
    qr_code_value : String) (now : Int) : Asset :=
  { item with
    name := if py_strip payload.model ≠ "" then py_strip payload.model
            else if str_upper (py_strip payload.serialNumber) ≠ "" then
              str_upper (py_strip payload.serialNumber)
            else item.asset_tag
    qr_code := qr_code_value
    location := py_strip payload.location
    serial_number := str_upper (py_strip payload.serialNumber)
    category := py_strip payload.category
    manufacturer := py_strip payload.manufacturer
    model := py_strip payload.model
    supplier := py_strip payload.supplier
    status := status_value
    assigned_to := assigned_user
    purchase_date := none
    warranty_until := none
    notes := py_strip payload.notes
    user_name := assigned_user
    condition := py_strip payload.condition
    updated_at := now }

/-- `update_asset` in `api.py` (lines 1116-1190), on an asset the actor may
see (the 404 lookup is outside this model).  Returns the updated row and the
`updated` AssetEvent if any tracked field changed. -/
def update_asset (current_user : User) (item : Asset) (payload : AssetIn)
    (year : Nat) (now : Int) : Except ApiError (Asset × Option AssetEvent) :=
  let status_value := str_lower (py_strip payload.status)
  if ¬ (status_value = "active" ∨ status_value = "maintenance" ∨ status_value = "retired"
        ∨ status_value = "lost") then
    .error (.validationError "status must be active|maintenance|retired|lost")
  else
    let assigned_user := normalize_assigned_user (some payload.user)
    match normalize_qr_class (some payload.qrClass) with
    | .error e => .error e
    | .ok qr_class =>
      match build_qr_code_from_asset_tag item.asset_tag qr_class year with
      | .error e => .error e
      | .ok qr_code_value =>
        let previous := asset_update_snapshot item
        let item2 := asset_update_apply item payload status_value assigned_user qr_code_value now
        let changes := asset_changes previous (asset_update_snapshot item2)
        if changes ≠ [] then
          .ok (item2, some { actor_id := some current_user.id
                             event_type := "updated"
                             changes := changes })
        else .ok (item2, none)

/-! ## Audit payload sanitization (`logic.py` lines 279-308)

Python `str` values are modelled as `List Char` (sequences of code points),
so that `len`, slicing and concatenation translate directly.  JSON values
(`dict`/`list`/`str`/`int`/`bool`/`None` payloads) are modelled by `Json`;
`json.dumps(..., ensure_ascii=True)` is modelled by `json_dumps` with its
default `", "`/`": "` separators and ASCII escaping. -/

/-- `AUDIT_PAYLOAD_STR_MAX` in `logic.py`. -/
def AUDIT_PAYLOAD_STR_MAX : Nat := 500

/-- `AUDIT_PAYLOAD_JSON_MAX` in `logic.py`. -/
def AUDIT_PAYLOAD_JSON_MAX : Nat := 4000

/-- `_truncate_text` in `logic.py` (lines 279-282). -/
def truncate_text (value : List Char) (max_len : Nat) : List Char :=
  if value.length ≤ max_len then value else value.take max_len ++ "...".toList

/-- A JSON-serializable Python value (audit payloads are built from these). -/
inductive Json
  | null
  | bool (b : Bool)
  | int (n : Int)
  | str (s : List Char)
  | arr (items : List Json)
  | obj (fields : List (List Char × Json))

/-- `_sanitize_audit_payload` in `logic.py` (lines 285-299), with the depth
counter replaced by the remaining fuel `5 - depth`: the source returns the
depth marker when `depth > 4`, i.e. exactly when the fuel is exhausted, and
recurses with `depth + 1`, i.e. fuel minus one.  Dict keys are truncated to
80 characters, strings to `AUDIT_PAYLOAD_STR_MAX`, lists to 30 elements. -/
def sanitize_fuel : Nat → Json → Json
  | 0, _ => .str "[depth-truncated]".toList
  | _ + 1, .null => .null
  | _ + 1, .bool b => .bool b
  | _ + 1, .int n => .int n
  | _ + 1, .str s => .str (truncate_text s AUDIT_PAYLOAD_STR_MAX)
  | fuel + 1, .obj fields =>
    .obj (fields.map (fun kv => (truncate_text kv.1 80, sanitize_fuel fuel kv.2)))
  | fuel + 1, .arr items => .arr ((items.take 30).map (fun item => sanitize_fuel fuel item))

/-- `_sanitize_audit_payload(value, depth)` in the source's depth phrasing. -/
def sanitize_audit_value (value : Json) (depth : Nat) : Json :=
  sanitize_fuel (5 - depth) value

/-- Lower-case hexadecimal digit. -/
def hexDigit (n : Nat) : Char := if n < 10 then Char.ofNat (48 + n) else Char.ofNat (87 + n)

/-- Four lower-case hex digits, as in Python's `\uXXXX` escapes. -/
def hex4 (n : Nat) : List Char :=
  [hexDigit (n / 4096 % 16), hexDigit (n / 256 % 16), hexDigit (n / 16 % 16), hexDigit (n % 16)]

/-- `json.dumps(..., ensure_ascii=True)` encoding of one string character:
`"` and `\` get a backslash escape, the usual control-character shorthands
apply, all other characters outside `0x20-0x7e` become `\uXXXX` escapes
(a surrogate pair beyond the BMP). -/
def escape_char (c : Char) : List Char :=
  if c = '"' then ['\\', '"']
  else if c = '\\' then ['\\', '\\']
  else if c = '\n' then ['\\', 'n']
  else if c = '\t' then ['\\', 't']
  else if c = '\r' then ['\\', 'r']
  else if c.toNat = 8 then ['\\', 'b']
  else if c.toNat = 12 then ['\\', 'f']
  else if c.toNat < 32 then '\\' :: 'u' :: hex4 c.toNat
  else if c.toNat < 127 then [c]
  else if c.toNat ≤ 65535 then '\\' :: 'u' :: hex4 c.toNat
  else
    ('\\' :: 'u' :: hex4 (55296 + (c.toNat - 65536) / 1024)) ++
      ('\\' :: 'u' :: hex4 (56320 + (c.toNat - 65536) % 1024))

/-- JSON string-body encoding: each character escaped in sequence. -/
def escape_string : List Char → List Char
  | [] => []
  | c :: rest => escape_char c ++ escape_string rest

/-- A JSON string literal: quote, escaped body, quote. -/
def encode_json_string (s : List Char) : List Char := '"' :: (escape_string s ++ ['"'])

mutual

/-- `json.dumps(value, ensure_ascii=True)` with the default separators. -/
def json_dumps : Json → List Char
  | .null => "null".toList
  | .bool b => if b then "true".toList else "false".toList
  | .int n => (toString n).toList
  | .str s => encode_json_string s
  | .arr items => '[' :: (json_dumps_items items ++ [']'])
  | .obj fields => '{' :: (json_dumps_fields fields ++ ['}'])

/-- Array elements joined by `", "`. -/
def json_dumps_items : List Json → List Char
  | [] => []
  | [v] => json_dumps v
  | v :: rest => json_dumps v ++ (", ".toList ++ json_dumps_items rest)

/-- Object entries `key: value` joined by `", "`. -/
def json_dumps_fields : List (List Char × Json) → List Char
  | [] => []
  | [(k, v)] => encode_json_string k ++ (": ".toList ++ json_dumps v)
  | (k, v) :: rest =>
    encode_json_string k ++ (": ".toList ++ (json_dumps v ++ (", ".toList ++ json_dumps_fields rest)))

end

/-- `sanitize_audit_payload` in `logic.py` (lines 302-308); `none` models a
`None` payload (`payload or {}`). -/
def sanitize_audit_payload (payload : Option (List (List Char × Json))) : List Char :=
  let normalized := sanitize_fuel 5 (.obj (payload.getD []))
  let raw := json_dumps normalized
  if raw.length ≤ AUDIT_PAYLOAD_JSON_MAX then raw
  else
    let preview := truncate_text raw (AUDIT_PAYLOAD_JSON_MAX - 64)
    json_dumps (.obj [("truncated".toList, .bool true), ("preview".toList, .str preview)])

/-! ## Event replay (spec section 8, round-trip property) -/

/-- Modelled from the spec: the repository stores TicketEvents but has no
replay routine; section 8's round-trip property says replaying the full
TicketEvent sequence in order "must reconstruct the same final status,
assigneeId, and resolution as the live entity".  The replay state holds
exactly those three fields, starting from the creation defaults. -/
structure ReplayState where
  status : TicketStatus
  assigneeId : Option String
  resolution : String
deriving DecidableEq, Repr

/-- Modelled from the spec: the replay starting point — a ticket is created
in status `new`, unassigned, with the column-default empty resolution. -/
def replay_init : ReplayState :=
  { status := .new, assigneeId := none, resolution := "" }

/-- Modelled from the spec: fold one TicketEvent payload into the replay
state.  `created` carries the initial status; `updated` carries the new
status and assignee; `assigned` carries the new assignee.  No event payload
carries the resolution text, so replay can only keep its current value. -/
def replay_step (st : ReplayState) (e : TicketEvent) : ReplayState :=
  match e.payload with
  | .createdP s _ _ => { st with status := s }
  | .updatedP _ s a => { st with status := s, assigneeId := a }
  | .assignedP a => { st with assigneeId := a }

/-- Modelled from the spec: replay a full event sequence in creation order. -/
def replay_ticket_events (events : List TicketEvent) : ReplayState :=
  events.foldl replay_step replay_init

/-- One mutating ticket request after creation: a `PATCH /api/tickets/{id}`
or a `PATCH /api/tickets/{id}/assign`, with its actor and clock readings. -/
inductive TicketOp
  | patch (actor : User) (payload : TicketPatchIn) (now : Int) (nowIso : String)
      (freshIds : Nat → String)
  | assign (actor : User) (assigneeId : Option String) (now : Int)

/-- Dispatch one request against the live ticket row. -/
def apply_ticket_op (users : List User) (t : Ticket) :
    TicketOp → Except ApiError (Ticket × TicketEvent)
  | .patch actor payload now nowIso freshIds =>
    patch_ticket users actor t payload now nowIso freshIds
  | .assign actor assigneeId now => assign_ticket users actor t assigneeId now

/-- Run a sequence of requests; a rejected request rolls back, leaving the
ticket unchanged and appending no event (entity and journal stay
consistent, section 7). -/
def run_ticket_ops (users : List User) : Ticket → List TicketOp → Ticket × List TicketEvent
  | t, [] => (t, [])
  | t, op :: rest =>
    match apply_ticket_op users t op with
    | .error _ => run_ticket_ops users t rest
    | .ok (t2, e) =>
      let result := run_ticket_ops users t2 rest
      (result.1, e :: result.2)

/-! ## Helper lemmas about the ticket operations -/

/-- A successful assignee block changes at most `assignee_id`. -/
theorem patch_assignee_ok_shape (users : List User) (actor : User) (t : Ticket)
    (aid : Option String) (t2 : Ticket)
    (h : patch_assignee users actor t aid = .ok t2) :
    t2 = { t with assignee_id := t2.assignee_id } := by
  cases aid with
  | none =>
    simp only [patch_assignee] at h
    injection h with h
    subst h
    rfl
  | some a =>
    simp only [patch_assignee] at h
    split at h
    · exact absurd h (by simp)
    · split at h
      · injection h with h
        subst h
        rfl
      · split at h
        · exact absurd h (by simp)
        · split at h
          · injection h with h
            subst h
            rfl
          · exact absurd h (by simp)

/-- A successful notes/evidence block changes at most `process_notes` and
`evidence`. -/
theorem patch_notes_evidence_ok_shape (t2 : Ticket) (pn : Option String)
    (ev : Option (List TicketEvidenceIn)) (nowIso : String) (freshIds : Nat → String)
    (t4 : Ticket) (h : patch_notes_evidence t2 pn ev nowIso freshIds = .ok t4) :
    t4 = { t2 with process_notes := t4.process_notes, evidence := t4.evidence } := by
  unfold patch_notes_evidence at h
  cases ev with
  | none =>
    simp only at h
    injection h with h
    subst h
    cases pn <;> rfl
  | some items =>
    simp only at h
    split at h
    · exact absurd h (by simp)
    · injection h with h
      subst h
      cases pn <;> rfl

/-- The timestamp / fixed-by block never touches status, resolution,
assignee, deadlines, evidence, notes or creation data. -/
theorem patch_status_side_effects_frame (actor : User) (t4 : Ticket) (now : Int) :
    (patch_status_side_effects actor t4 now).status = t4.status
    ∧ (patch_status_side_effects actor t4 now).resolution = t4.resolution
    ∧ (patch_status_side_effects actor t4 now).assignee_id = t4.assignee_id
    ∧ (patch_status_side_effects actor t4 now).first_response_due_at = t4.first_response_due_at
    ∧ (patch_status_side_effects actor t4 now).resolution_due_at = t4.resolution_due_at
    ∧ (patch_status_side_effects actor t4 now).created_at = t4.created_at
    ∧ (patch_status_side_effects actor t4 now).requester_id = t4.requester_id
    ∧ (patch_status_side_effects actor t4 now).priority = t4.priority
    ∧ (patch_status_side_effects actor t4 now).process_notes = t4.process_notes
    ∧ (patch_status_side_effects actor t4 now).evidence = t4.evidence := by
  simp only [patch_status_side_effects]
  split_ifs <;> simp

/-- Everything a successful `patch_ticket` guarantees about the returned
row and event: the new status is the requested one (current status when the
request omits it), `resolution` is overwritten by the payload field, the SLA
deadlines and creation data are untouched, and the appended event records
the previous status plus the new status/assignee. -/
theorem patch_ticket_ok_spec (users : List User) (actor : User) (t : Ticket)
    (p : TicketPatchIn) (now : Int) (nowIso : String) (freshIds : Nat → String)
    (t2 : Ticket) (e : TicketEvent)
    (h : patch_ticket users actor t p now nowIso freshIds = .ok (t2, e)) :
    t2.status = p.status.getD t.status
    ∧ t2.resolution = p.resolution
    ∧ t2.first_response_due_at = t.first_response_due_at
    ∧ t2.resolution_due_at = t.resolution_due_at
    ∧ t2.created_at = t.created_at
    ∧ t2.requester_id = t.requester_id
    ∧ t2.priority = t.priority
    ∧ e = { actor_id := some actor.id, event_type := "updated",
            payload := .updatedP t.status t2.status t2.assignee_id } := by
  simp only [patch_ticket] at h
  split at h
  · exact absurd h (by simp)
  · rename_i hval
    split at h
    · exact absurd h (by simp)
    · rename_i t2' hassign
      split at h
      · exact absurd h (by simp)
      · rename_i t4' hev
        injection h with h
        injection h with h1 h2
        subst h1
        subst h2
        have hshape := patch_assignee_ok_shape _ _ _ _ _ hassign
        have hnotes := patch_notes_evidence_ok_shape _ _ _ _ _ _ hev
        have hframe := patch_status_side_effects_frame actor t4' now
        obtain ⟨f1, f2, f3, f4, f5, f6, f7, f8, f9, f10⟩ := hframe
        refine ⟨?_, ?_, ?_, ?_, ?_, ?_, ?_, ?_⟩
        · rw [f1, hnotes, hshape]
        · rw [f2, hnotes, hshape]
        · rw [f4, hnotes, hshape]
        · rw [f5, hnotes, hshape]
        · rw [f6, hnotes, hshape]
        · rw [f7, hnotes, hshape]
        · rw [f8, hnotes, hshape]
        · rfl

/-- Everything a successful `assign_ticket` guarantees: only `assignee_id`
and `updated_at` change, and the appended event records the new assignee. -/
theorem assign_ticket_ok_spec (users : List User) (actor : User) (t : Ticket)
    (aid : Option String) (now : Int) (t2 : Ticket) (e : TicketEvent)
    (h : assign_ticket users actor t aid now = .ok (t2, e)) :
    t2 = { t with assignee_id := t2.assignee_id, updated_at := now }
    ∧ e = { actor_id := some actor.id, event_type := "assigned",
            payload := .assignedP t2.assignee_id } := by
  simp only [assign_ticket] at h
  split at h
  · exact absurd h (by simp)
  · split at h
    · exact absurd h (by simp)
    · rename_i t1' hsel
      injection h with h
      injection h with h1 h2
      subst h1
      subst h2
      have hshape : t1' = { t with assignee_id := t1'.assignee_id } := by
        split at hsel
        · injection hsel with hsel
          subst hsel
          rfl
        · split at hsel
          · exact absurd hsel (by simp)
          · split at hsel
            · injection hsel with hsel
              subst hsel
              rfl
            · exact absurd hsel (by simp)
      constructor
      · conv_lhs => rw [hshape]
      · rfl

/-! ## Claim theorems -/

/-- Claim C1: for every requested status change (target ≠ current), the
transition table of section 4.2 is exhaustively respected: validation
succeeds exactly when the target is in the allowed set of the current
status, and any unlisted target fails with `InvalidTransition(current,
target)`; a patch requesting such a target fails with exactly that error
before mutating anything. -/
theorem ticket_transition_table_respected :
    (∀ current target : TicketStatus, current ≠ target →
      ((target ∈ TICKET_TRANSITIONS current ↔
          validate_ticket_transition current target = .ok ())
        ∧ (target ∉ TICKET_TRANSITIONS current →
            validate_ticket_transition current target =
              .error (.invalidTransition current target))))
    ∧ (∀ (users : List User) (actor : User) (ticket : Ticket) (payload : TicketPatchIn)
        (now : Int) (nowIso : String) (freshIds : Nat → String) (target : TicketStatus),
        payload.status = some target → target ≠ ticket.status →
        target ∉ TICKET_TRANSITIONS ticket.status →
        patch_ticket users actor ticket payload now nowIso freshIds =
          .error (.invalidTransition ticket.status target)) := by
  constructor
  · decide
  · intro users actor ticket payload now nowIso freshIds target hs hne hnotin
    have hv : validate_ticket_transition ticket.status target =
        .error (.invalidTransition ticket.status target) := by
      unfold validate_ticket_transition
      rw [if_neg (fun hh => hne hh.symm), if_neg hnotin]
    simp [patch_ticket, hs, hv]

/-- Witness for C1: `new → resolved` and `resolved → reopened` are accepted,
`new → closed` is rejected with `InvalidTransition(new, closed)`. -/
theorem ticket_transition_table_respected_witness :
    validate_ticket_transition .new .resolved = .ok ()
    ∧ validate_ticket_transition .resolved .reopened = .ok ()
    ∧ validate_ticket_transition .new .closed = .error (.invalidTransition .new .closed) := by
  refine ⟨?_, ?_, ?_⟩
  · exact ((ticket_transition_table_respected.1 .new .resolved (by decide)).1).mp (by decide)
  · exact ((ticket_transition_table_respected.1 .resolved .reopened (by decide)).1).mp (by decide)
  · exact (ticket_transition_table_respected.1 .new .closed (by decide)).2 (by decide)

/-- Claim C2: `slaState` is `completed` iff the status is resolved/closed;
otherwise `on_track` when no resolution deadline is set; otherwise
`breached` iff the deadline has passed, `at_risk` iff it is within the next
two hours, `on_track` otherwise.  A critical ticket created at `t0` is
`at_risk` at `t0+3h1m` and `breached` at `t0+4h1m` while still `new`, and
any ticket successfully patched to `resolved` is `completed` at any later
reading. -/
theorem ticket_sla_state_spec :
    (∀ (t : Ticket) (now : Int),
      (t.status ∈ TICKET_RESOLUTION_STATUSES → compute_ticket_sla_state t now = "completed")
      ∧ (t.status ∉ TICKET_RESOLUTION_STATUSES → t.resolution_due_at = none →
          compute_ticket_sla_state t now = "on_track")
      ∧ (∀ due, t.status ∉ TICKET_RESOLUTION_STATUSES → t.resolution_due_at = some due →
          ((compute_ticket_sla_state t now = "breached" ↔ due ≤ now)
            ∧ (compute_ticket_sla_state t now = "at_risk" ↔ now < due ∧ due ≤ now + 7200)
            ∧ (compute_ticket_sla_state t now = "on_track" ↔ now + 7200 < due))))
    ∧ (∀ (requester : User) (title tid : String) (t0 : Int),
        compute_ticket_sla_state (create_ticket requester ⟨title, "", .help, .critical⟩ t0 tid).1
            (t0 + (3 * 3600 + 60)) = "at_risk"
        ∧ compute_ticket_sla_state (create_ticket requester ⟨title, "", .help, .critical⟩ t0 tid).1
            (t0 + (4 * 3600 + 60)) = "breached")
    ∧ (∀ (users : List User) (actor : User) (t : Ticket) (p : TicketPatchIn) (now : Int)
        (nowIso : String) (freshIds : Nat → String) (t2 : Ticket) (e : TicketEvent),
        p.status = some .resolved →
        patch_ticket users actor t p now nowIso freshIds = .ok (t2, e) →
        ∀ later, compute_ticket_sla_state t2 later = "completed") := by
  refine ⟨?_, ?_, ?_⟩
  · intro t now
    refine ⟨?_, ?_, ?_⟩
    · intro hmem
      simp [compute_ticket_sla_state, hmem]
    · intro hmem hnone
      simp [compute_ticket_sla_state, hmem, hnone]
    · intro due hmem hsome
      simp only [compute_ticket_sla_state, if_neg hmem, hsome, hoursToSeconds]
      refine ⟨?_, ?_, ?_⟩ <;> split_ifs with h1 h2 <;> first | (simp_all; omega) | simp_all
  · intro requester title tid t0
    constructor <;>
      · simp only [create_ticket, calculate_ticket_deadlines, compute_ticket_sla_state,
          TICKET_RESOLUTION_STATUSES, hoursToSeconds, TICKET_RESOLUTION_SLA_HOURS,
          TICKET_FIRST_RESPONSE_SLA_HOURS, List.mem_cons, List.not_mem_nil]
        split_ifs <;> first | rfl | (exfalso; omega) | simp_all
  · intro users actor t p now nowIso freshIds t2 e hp hpatch later
    obtain ⟨hstat, -⟩ := patch_ticket_ok_spec _ _ _ _ _ _ _ _ _ hpatch
    rw [hp] at hstat
    simp only [Option.getD_some] at hstat
    simp [compute_ticket_sla_state, hstat, TICKET_RESOLUTION_STATUSES]

/-- Witness for C2: a successfully resolved patched ticket reads
`completed` much later, and a ticket due in 7000s reads `at_risk` at time 0. -/
theorem ticket_sla_state_spec_witness :
    compute_ticket_sla_state
        ⟨"t1", "r1", "ti", "de", .help, .critical, .resolved, "", "", [], some "u1", none,
          some 3600, some 14400, none, some 5, none, 0, 5⟩ 999999 = "completed"
    ∧ compute_ticket_sla_state
        ⟨"t1", "r1", "ti", "de", .help, .low, .new, "", "", [], none, none,
          some 3600, some 7000, none, none, none, 0, 0⟩ 0 = "at_risk" := by
  constructor
  · exact ticket_sla_state_spec.2.2 [] ⟨"u1", .admin⟩
      ⟨"t1", "r1", "ti", "de", .help, .critical, .new, "", "", [], none, none,
        some 3600, some 14400, none, none, none, 0, 0⟩
      ⟨some .resolved, none, "", none, none⟩ 5 "iso" (fun _ => "fresh")
      ⟨"t1", "r1", "ti", "de", .help, .critical, .resolved, "", "", [], some "u1", none,
        some 3600, some 14400, none, some 5, none, 0, 5⟩
      ⟨some "u1", "updated", .updatedP .new .resolved none⟩ rfl (by decide) 999999
  · exact ((ticket_sla_state_spec.1 _ 0).2.2 7000 (by decide) rfl).2.1.mpr (by decide)

/-- Claim C3: the first-response and resolution deadlines are computed at
creation as `createdAt` plus the fixed per-priority hour tables
(first response: low=24, medium=8, high=2, critical=1; resolution: low=72,
medium=24, high=8, critical=4), and no successful patch or assignment
changes either field. -/
theorem ticket_deadlines_fixed_at_creation :
    (TICKET_FIRST_RESPONSE_SLA_HOURS .low = 24 ∧ TICKET_FIRST_RESPONSE_SLA_HOURS .medium = 8
      ∧ TICKET_FIRST_RESPONSE_SLA_HOURS .high = 2 ∧ TICKET_FIRST_RESPONSE_SLA_HOURS .critical = 1
      ∧ TICKET_RESOLUTION_SLA_HOURS .low = 72 ∧ TICKET_RESOLUTION_SLA_HOURS .medium = 24
      ∧ TICKET_RESOLUTION_SLA_HOURS .high = 8 ∧ TICKET_RESOLUTION_SLA_HOURS .critical = 4)
    ∧ (∀ (u : User) (payload : TicketIn) (now : Int) (tid : String),
        (create_ticket u payload now tid).1.first_response_due_at
          = some (now + TICKET_FIRST_RESPONSE_SLA_HOURS payload.priority * 3600)
        ∧ (create_ticket u payload now tid).1.resolution_due_at
          = some (now + TICKET_RESOLUTION_SLA_HOURS payload.priority * 3600)
        ∧ (create_ticket u payload now tid).1.created_at = now)
    ∧ (∀ (users : List User) (actor : User) (t : Ticket) (p : TicketPatchIn) (now : Int)
        (nowIso : String) (freshIds : Nat → String) (t2 : Ticket) (e : TicketEvent),
        patch_ticket users actor t p now nowIso freshIds = .ok (t2, e) →
        t2.first_response_due_at = t.first_response_due_at
        ∧ t2.resolution_due_at = t.resolution_due_at)
    ∧ (∀ (users : List User) (actor : User) (t : Ticket) (aid : Option String) (now : Int)
        (t2 : Ticket) (e : TicketEvent),
        assign_ticket users actor t aid now = .ok (t2, e) →
        t2.first_response_due_at = t.first_response_due_at
        ∧ t2.resolution_due_at = t.resolution_due_at) := by
  refine ⟨⟨rfl, rfl, rfl, rfl, rfl, rfl, rfl, rfl⟩, ?_, ?_, ?_⟩
  · intro u payload now tid
    exact ⟨rfl, rfl, rfl⟩
  · intro users actor t p now nowIso freshIds t2 e hpatch
    obtain ⟨-, -, h1, h2, -⟩ := patch_ticket_ok_spec _ _ _ _ _ _ _ _ _ hpatch
    exact ⟨h1, h2⟩
  · intro users actor t aid now t2 e hassign
    obtain ⟨hsh, -⟩ := assign_ticket_ok_spec _ _ _ _ _ _ _ hassign
    rw [hsh]
    exact ⟨rfl, rfl⟩

/-- Witness for C3: a concrete patch taking a critical ticket to `resolved`
leaves both deadlines exactly as set at creation. -/
theorem ticket_deadlines_fixed_at_creation_witness :
    (⟨"t1", "r1", "ti", "de", .help, .critical, .resolved, "", "", [], some "u1", none,
        some 3600, some 14400, none, some 5, none, 0, 5⟩ : Ticket).first_response_due_at
      = (⟨"t1", "r1", "ti", "de", .help, .critical, .new, "", "", [], none, none,
          some 3600, some 14400, none, none, none, 0, 0⟩ : Ticket).first_response_due_at
    ∧ (⟨"t1", "r1", "ti", "de", .help, .critical, .resolved, "", "", [], some "u1", none,
        some 3600, some 14400, none, some 5, none, 0, 5⟩ : Ticket).resolution_due_at
      = (⟨"t1", "r1", "ti", "de", .help, .critical, .new, "", "", [], none, none,
          some 3600, some 14400, none, none, none, 0, 0⟩ : Ticket).resolution_due_at := by
  exact ticket_deadlines_fixed_at_creation.2.2.1 [] ⟨"u1", .admin⟩
    ⟨"t1", "r1", "ti", "de", .help, .critical, .new, "", "", [], none, none,
      some 3600, some 14400, none, none, none, 0, 0⟩
    ⟨some .resolved, none, "", none, none⟩ 5 "iso" (fun _ => "fresh")
    ⟨"t1", "r1", "ti", "de", .help, .critical, .resolved, "", "", [], some "u1", none,
      some 3600, some 14400, none, some 5, none, 0, 5⟩
    ⟨some "u1", "updated", .updatedP .new .resolved none⟩ (by decide)

/-- The assignee block can only fail with `Forbidden`, `Assignee not found`
or `InvalidAssignee`. -/
theorem patch_assignee_error_shape (users : List User) (actor : User) (t : Ticket)
    (aid : Option String) (err : ApiError)
    (h : patch_assignee users actor t aid = .error err) :
    (∃ d, err = .forbidden d) ∨ err = .notFound "Assignee not found" ∨ err = .invalidAssignee := by
  cases aid with
  | none => exact absurd h (by simp [patch_assignee])
  | some a =>
    simp only [patch_assignee] at h
    split at h
    · rename_i e1 hperm
      unfold validate_assignment_permission at hperm
      split_ifs at hperm <;> injection hperm with hperm <;> subst hperm <;>
        (injection h with h; subst h; exact .inl ⟨_, rfl⟩)
    · split at h
      · exact absurd h (by simp)
      · split at h
        · injection h with h
          subst h
          exact .inr (.inl rfl)
        · split at h
          · exact absurd h (by simp)
          · injection h with h
            subst h
            exact .inr (.inr rfl)

/-- The evidence loop can only fail with the image-payload validation
error. -/
theorem normalize_evidence_error_shape (nowIso : String) (freshIds : Nat → String)
    (items : List TicketEvidenceIn) (i : Nat) (err : ApiError)
    (h : normalize_evidence nowIso freshIds items i = .error err) :
    err = .validationError "evidence imageData must be a data:image/* URL" := by
  induction items generalizing i with
  | nil => exact absurd h (by simp [normalize_evidence])
  | cons item rest ih =>
    simp only [normalize_evidence] at h
    split at h
    · rename_i hitem
      simp only [normalize_evidence_item] at hitem
      split at hitem
      · injection hitem with hitem
        injection h with h
        subst h
        exact hitem.symm
      · exact absurd hitem (by simp)
    · split at h
      · rename_i hrest
        injection h with h
        subst h
        exact ih _ hrest
      · exact absurd h (by simp)

/-- The notes/evidence block can only fail with the image-payload
validation error. -/
theorem patch_notes_evidence_error_shape (t : Ticket) (pn : Option String)
    (ev : Option (List TicketEvidenceIn)) (nowIso : String) (freshIds : Nat → String)
    (err : ApiError)
    (h : patch_notes_evidence t pn ev nowIso freshIds = .error err) :
    err = .validationError "evidence imageData must be a data:image/* URL" := by
  unfold patch_notes_evidence at h
  cases ev with
  | none => exact absurd h (by simp)
  | some items =>
    simp only at h
    split at h
    · rename_i hrest
      injection h with h
      subst h
      exact normalize_evidence_error_shape _ _ _ _ _ hrest
    · exact absurd h (by simp)

/-- Claim C8 (amended): a patch requesting the current status always passes
transition validation — `validate_ticket_transition current current`
succeeds for every status, such a patch never fails with
`InvalidTransition`, a benign self-patch (no assignee change, no evidence)
always succeeds, and a successful self-patch leaves the *status* unchanged.
The patch is however not a no-op on the whole row: the resolution,
timestamps and `fixed_by_id` side effects still apply (see the
counterexample). -/
theorem ticket_self_transition_validation_noop :
    (∀ current : TicketStatus, validate_ticket_transition current current = .ok ())
    ∧ (∀ (users : List User) (actor : User) (t : Ticket) (p : TicketPatchIn) (now : Int)
        (nowIso : String) (freshIds : Nat → String),
        p.status = some t.status →
        (∀ a b, patch_ticket users actor t p now nowIso freshIds ≠
          .error (.invalidTransition a b)))
    ∧ (∀ (users : List User) (actor : User) (t : Ticket) (now : Int)
        (nowIso : String) (freshIds : Nat → String) (res : String) (pn : Option String),
        ∃ t2 e, patch_ticket users actor t ⟨some t.status, none, res, pn, none⟩
          now nowIso freshIds = .ok (t2, e))
    ∧ (∀ (users : List User) (actor : User) (t : Ticket) (p : TicketPatchIn) (now : Int)
        (nowIso : String) (freshIds : Nat → String) (t2 : Ticket) (e : TicketEvent),
        p.status = some t.status →
        patch_ticket users actor t p now nowIso freshIds = .ok (t2, e) →
        t2.status = t.status) := by
  have hval : ∀ current : TicketStatus, validate_ticket_transition current current = .ok () := by
    intro current
    simp [validate_ticket_transition]
  refine ⟨hval, ?_, ?_, ?_⟩
  · intro users actor t p now nowIso freshIds hp a b hcontra
    simp only [patch_ticket, hp, Option.getD_some, hval t.status] at hcontra
    split at hcontra
    · rename_i err herr
      injection hcontra with hcontra
      rcases patch_assignee_error_shape _ _ _ _ _ herr with ⟨d, hd⟩ | hd | hd <;>
        subst hcontra <;> simp_all
    · split at hcontra
      · rename_i err herr
        injection hcontra with hcontra
        have := patch_notes_evidence_error_shape _ _ _ _ _ _ herr
        subst hcontra
        simp_all
      · exact absurd hcontra (by simp)
  · intro users actor t now nowIso freshIds res pn
    simp only [patch_ticket, Option.getD_some, hval t.status, patch_assignee,
      patch_notes_evidence]
    exact ⟨_, _, rfl⟩
  · intro users actor t p now nowIso freshIds t2 e hp hpatch
    obtain ⟨hstat, -⟩ := patch_ticket_ok_spec _ _ _ _ _ _ _ _ _ hpatch
    rw [hp] at hstat
    simpa using hstat

/-- Counterexample for C8 as frozen: a patch requesting the current status
(`new → new`) on a ticket whose stored resolution is "done" succeeds but
does NOT leave the ticket unchanged — the resolution is erased and
`updated_at` moves, so the self-transition is not a no-op on the row. -/
theorem ticket_self_transition_not_noop_counterexample :
    patch_ticket [] ⟨"u1", .admin⟩
        ⟨"t1", "r1", "ti", "de", .help, .low, .new, "done", "", [], none, none,
          some 86400, some 259200, none, none, none, 0, 0⟩
        ⟨some .new, none, "", none, none⟩ 5 "iso" (fun _ => "fresh")
      = .ok (⟨"t1", "r1", "ti", "de", .help, .low, .new, "", "", [], none, none,
              some 86400, some 259200, none, none, none, 0, 5⟩,
             ⟨some "u1", "updated", .updatedP .new .new none⟩)
    ∧ (⟨"t1", "r1", "ti", "de", .help, .low, .new, "", "", [], none, none,
          some 86400, some 259200, none, none, none, 0, 5⟩ : Ticket)
        ≠ ⟨"t1", "r1", "ti", "de", .help, .low, .new, "done", "", [], none, none,
            some 86400, some 259200, none, none, none, 0, 0⟩ := by
  constructor
  · decide
  · decide

/-- Witness for C8 (amended): the benign self-patch on a concrete `blocked`
ticket succeeds, never with `InvalidTransition`, and keeps the status. -/
theorem ticket_self_transition_validation_noop_witness :
    validate_ticket_transition .blocked .blocked = .ok ()
    ∧ (∀ a b, patch_ticket [] ⟨"u1", .admin⟩
        ⟨"t1", "r1", "ti", "de", .help, .low, .blocked, "", "", [], none, none,
          none, none, none, none, none, 0, 0⟩
        ⟨some .blocked, none, "", none, none⟩ 5 "iso" (fun _ => "fresh")
        ≠ .error (.invalidTransition a b))
    ∧ (∃ t2 e, patch_ticket [] ⟨"u1", .admin⟩
        ⟨"t1", "r1", "ti", "de", .help, .low, .blocked, "", "", [], none, none,
          none, none, none, none, none, 0, 0⟩
        ⟨some .blocked, none, "", none, none⟩ 5 "iso" (fun _ => "fresh") = .ok (t2, e)) := by
  refine ⟨ticket_self_transition_validation_noop.1 .blocked, ?_, ?_⟩
  · exact ticket_self_transition_validation_noop.2.1 [] ⟨"u1", .admin⟩
      ⟨"t1", "r1", "ti", "de", .help, .low, .blocked, "", "", [], none, none,
        none, none, none, none, none, 0, 0⟩
      ⟨some .blocked, none, "", none, none⟩ 5 "iso" (fun _ => "fresh") rfl
  · exact ticket_self_transition_validation_noop.2.2.1 [] ⟨"u1", .admin⟩
      ⟨"t1", "r1", "ti", "de", .help, .low, .blocked, "", "", [], none, none,
        none, none, none, none, none, 0, 0⟩ 5 "iso" (fun _ => "fresh") "" none

/-- Claim C10: `patch_ticket` stores `payload.resolution` unconditionally,
and `TicketPatchIn.resolution` defaults to `""` when the request omits the
field, so a patch that only changes status, assignee, notes or evidence
erases a previously stored resolution. -/
theorem ticket_patch_resolution_overwritten :
    (∀ (users : List User) (actor : User) (t : Ticket) (p : TicketPatchIn) (now : Int)
        (nowIso : String) (freshIds : Nat → String) (t2 : Ticket) (e : TicketEvent),
        patch_ticket users actor t p now nowIso freshIds = .ok (t2, e) →
        t2.resolution = p.resolution)
    ∧ (∀ (users : List User) (actor : User) (t : Ticket) (p : TicketPatchIn) (now : Int)
        (nowIso : String) (freshIds : Nat → String) (t2 : Ticket) (e : TicketEvent),
        p.resolution = "" →
        patch_ticket users actor t p now nowIso freshIds = .ok (t2, e) →
        t2.resolution = "") := by
  have base : ∀ (users : List User) (actor : User) (t : Ticket) (p : TicketPatchIn) (now : Int)
      (nowIso : String) (freshIds : Nat → String) (t2 : Ticket) (e : TicketEvent),
      patch_ticket users actor t p now nowIso freshIds = .ok (t2, e) →
      t2.resolution = p.resolution := by
    intro users actor t p now nowIso freshIds t2 e hpatch
    exact (patch_ticket_ok_spec _ _ _ _ _ _ _ _ _ hpatch).2.1
  refine ⟨base, ?_⟩
  intro users actor t p now nowIso freshIds t2 e hres hpatch
  rw [base _ _ _ _ _ _ _ _ _ hpatch, hres]

/-- Witness for C10: the concrete self-patch of the C8 scenario leaves the
stored resolution empty because the request omitted the field. -/
theorem ticket_patch_resolution_overwritten_witness :
    (⟨"t1", "r1", "ti", "de", .help, .low, .new, "", "", [], none, none,
        some 86400, some 259200, none, none, none, 0, 5⟩ : Ticket).resolution = "" := by
  exact ticket_patch_resolution_overwritten.2 [] ⟨"u1", .admin⟩
    ⟨"t1", "r1", "ti", "de", .help, .low, .new, "done", "", [], none, none,
      some 86400, some 259200, none, none, none, 0, 0⟩
    ⟨some .new, none, "", none, none⟩ 5 "iso" (fun _ => "fresh")
    ⟨"t1", "r1", "ti", "de", .help, .low, .new, "", "", [], none, none,
      some 86400, some 259200, none, none, none, 0, 5⟩
    ⟨some "u1", "updated", .updatedP .new .new none⟩ rfl (by decide)

/-- Claim C4 (amended): assignment rules of `validate_assignment_permission`
plus `assign_ticket`.  An admin may assign to any existing admin/developer
user; a developer may only assign to self or unassign, any third target
failing with `Forbidden`; any other role is forbidden from assigning; once
the actor's permission check passes (i.e. for an admin actor), a user-role
target fails with `InvalidAssignee` and an unknown id with
`AssigneeNotFound`.  Assigning a user-role account therefore always fails,
but for a non-admin actor the failure is the earlier `Forbidden`, not
`InvalidAssignee` (see the counterexample). -/
theorem ticket_assignment_rules :
    (∀ (users : List User) (actor : User) (t : Ticket) (aid : String) (u : User) (now : Int),
        actor.role = .admin → find_user users aid = some u →
        (u.role = .admin ∨ u.role = .developer) →
        assign_ticket users actor t (some aid) now =
          .ok ({ t with assignee_id := some u.id, updated_at := now },
               ⟨some actor.id, "assigned", .assignedP (some u.id)⟩))
    ∧ (∀ (users : List User) (actor : User) (t : Ticket) (now : Int),
        (actor.role = .admin ∨ actor.role = .developer) →
        assign_ticket users actor t none now =
          .ok ({ t with assignee_id := none, updated_at := now },
               ⟨some actor.id, "assigned", .assignedP none⟩))
    ∧ (∀ (users : List User) (actor : User) (t : Ticket) (now : Int),
        actor.role = .developer → find_user users actor.id = some actor →
        assign_ticket users actor t (some actor.id) now =
          .ok ({ t with assignee_id := some actor.id, updated_at := now },
               ⟨some actor.id, "assigned", .assignedP (some actor.id)⟩))
    ∧ (∀ (users : List User) (actor : User) (t : Ticket) (aid : String) (now : Int),
        actor.role = .developer → aid ≠ actor.id →
        assign_ticket users actor t (some aid) now =
          .error (.forbidden "Developers can only assign tickets to themselves"))
    ∧ (∀ (users : List User) (actor : User) (t : Ticket) (aid : Option String) (now : Int),
        actor.role ≠ .admin → actor.role ≠ .developer →
        assign_ticket users actor t aid now =
          .error (.forbidden "Only admin or developer can assign tickets"))
    ∧ (∀ (users : List User) (actor : User) (t : Ticket) (aid : String) (u : User) (now : Int),
        actor.role = .admin → find_user users aid = some u → u.role = .user →
        assign_ticket users actor t (some aid) now = .error .invalidAssignee)
    ∧ (∀ (users : List User) (actor : User) (t : Ticket) (aid : String) (now : Int),
        actor.role = .admin → find_user users aid = none →
        assign_ticket users actor t (some aid) now =
          .error (.notFound "Assignee not found")) := by
  refine ⟨?_, ?_, ?_, ?_, ?_, ?_, ?_⟩
  · intro users actor t aid u now hrole hfind hu
    simp [assign_ticket, validate_assignment_permission, hrole, hfind, hu]
  · intro users actor t now hrole
    rcases hrole with h | h <;> simp [assign_ticket, validate_assignment_permission, h]
  · intro users actor t now hrole hfind
    simp [assign_ticket, validate_assignment_permission, hrole, hfind]
  · intro users actor t aid now hrole hne
    simp [assign_ticket, validate_assignment_permission, hrole, hne]
  · intro users actor t aid now h1 h2
    simp [assign_ticket, validate_assignment_permission, h1, h2]
  · intro users actor t aid u now hrole hfind hu
    simp [assign_ticket, validate_assignment_permission, hrole, hfind, hu]
  · intro users actor t aid now hrole hfind
    simp [assign_ticket, validate_assignment_permission, hrole, hfind]

/-- Counterexample for C4 as frozen: a developer assigning a ticket to a
third user whose role is `user` fails with `Forbidden` (the permission
check fires first), not with `InvalidAssignee`. -/
theorem ticket_assignment_user_role_not_invalid_assignee :
    assign_ticket [⟨"d1", .developer⟩, ⟨"u1", .user⟩] ⟨"d1", .developer⟩
        ⟨"t1", "r1", "ti", "de", .help, .low, .new, "", "", [], none, none,
          none, none, none, none, none, 0, 0⟩ (some "u1") 5
      = .error (.forbidden "Developers can only assign tickets to themselves")
    ∧ Except.error (ApiError.forbidden "Developers can only assign tickets to themselves")
      ≠ (Except.error .invalidAssignee :
          Except ApiError (Ticket × TicketEvent)) := by
  constructor
  · decide
  · decide

/-- Witness for C4 (amended): concrete instances of each assignment rule. -/
theorem ticket_assignment_rules_witness :
    assign_ticket [⟨"a1", .admin⟩, ⟨"d1", .developer⟩, ⟨"u1", .user⟩] ⟨"a1", .admin⟩
        ⟨"t1", "r1", "ti", "de", .help, .low, .new, "", "", [], none, none,
          none, none, none, none, none, 0, 0⟩ (some "d1") 5
      = .ok (⟨"t1", "r1", "ti", "de", .help, .low, .new, "", "", [], none, some "d1",
              none, none, none, none, none, 0, 5⟩,
             ⟨some "a1", "assigned", .assignedP (some "d1")⟩)
    ∧ assign_ticket [⟨"a1", .admin⟩, ⟨"d1", .developer⟩, ⟨"u1", .user⟩] ⟨"d1", .developer⟩
        ⟨"t1", "r1", "ti", "de", .help, .low, .new, "", "", [], none, none,
          none, none, none, none, none, 0, 0⟩ (some "a1") 5
      = .error (.forbidden "Developers can only assign tickets to themselves")
    ∧ assign_ticket [⟨"a1", .admin⟩, ⟨"d1", .developer⟩, ⟨"u1", .user⟩] ⟨"u1", .user⟩
        ⟨"t1", "r1", "ti", "de", .help, .low, .new, "", "", [], none, none,
          none, none, none, none, none, 0, 0⟩ none 5
      = .error (.forbidden "Only admin or developer can assign tickets")
    ∧ assign_ticket [⟨"a1", .admin⟩, ⟨"d1", .developer⟩, ⟨"u1", .user⟩] ⟨"a1", .admin⟩
        ⟨"t1", "r1", "ti", "de", .help, .low, .new, "", "", [], none, none,
          none, none, none, none, none, 0, 0⟩ (some "u1") 5
      = .error .invalidAssignee
    ∧ assign_ticket [⟨"a1", .admin⟩, ⟨"d1", .developer⟩, ⟨"u1", .user⟩] ⟨"a1", .admin⟩
        ⟨"t1", "r1", "ti", "de", .help, .low, .new, "", "", [], none, none,
          none, none, none, none, none, 0, 0⟩ (some "ghost") 5
      = .error (.notFound "Assignee not found") := by
  refine ⟨?_, ?_, ?_, ?_, ?_⟩
  · exact ticket_assignment_rules.1 _ _ _ _ ⟨"d1", .developer⟩ _ rfl (by decide) (.inr rfl)
  · exact ticket_assignment_rules.2.2.2.1 _ ⟨"d1", .developer⟩ _ "a1" _ rfl (by decide)
  · exact ticket_assignment_rules.2.2.2.2.1 _ ⟨"u1", .user⟩ _ _ _ (by decide) (by decide)
  · exact ticket_assignment_rules.2.2.2.2.2.1 _ _ _ _ ⟨"u1", .user⟩ _ rfl (by decide) rfl
  · exact ticket_assignment_rules.2.2.2.2.2.2 _ _ _ _ _ rfl (by decide)

/-- Replay invariant: folding the events appended by any run of successful
requests keeps the replay state's status and assignee in lock-step with the
live row (the `updated` and `assigned` payloads record the post-state). -/
theorem replay_run_invariant (users : List User) (ops : List TicketOp) :
    ∀ (t : Ticket) (st : ReplayState),
    st.status = t.status → st.assigneeId = t.assignee_id →
    (((run_ticket_ops users t ops).2.foldl replay_step st).status
        = (run_ticket_ops users t ops).1.status
      ∧ ((run_ticket_ops users t ops).2.foldl replay_step st).assigneeId
        = (run_ticket_ops users t ops).1.assignee_id) := by
  induction ops with
  | nil =>
    intro t st h1 h2
    simpa [run_ticket_ops] using ⟨h1, h2⟩
  | cons op rest ih =>
    intro t st h1 h2
    cases happly : apply_ticket_op users t op with
    | error e =>
      simp only [run_ticket_ops, happly]
      exact ih t st h1 h2
    | ok pair =>
      obtain ⟨t2, e⟩ := pair
      simp only [run_ticket_ops, happly, List.foldl_cons]
      refine ih t2 (replay_step st e) ?_ ?_
      · cases op with
        | patch actor payload pnow pnowIso pfresh =>
          obtain ⟨-, -, -, -, -, -, -, hev⟩ := patch_ticket_ok_spec _ _ _ _ _ _ _ _ _ happly
          rw [hev]
          rfl
        | assign actor aid anow =>
          obtain ⟨hsh, hev⟩ := assign_ticket_ok_spec _ _ _ _ _ _ _ happly
          rw [hev]
          show st.status = t2.status
          rw [hsh]
          exact h1
      · cases op with
        | patch actor payload pnow pnowIso pfresh =>
          obtain ⟨-, -, -, -, -, -, -, hev⟩ := patch_ticket_ok_spec _ _ _ _ _ _ _ _ _ happly
          rw [hev]
          rfl
        | assign actor aid anow =>
          obtain ⟨hsh, hev⟩ := assign_ticket_ok_spec _ _ _ _ _ _ _ happly
          rw [hev]
          rfl

/-- Claim C5 (amended): creating a ticket and replaying its full TicketEvent
sequence in creation order reconstructs the final *status* and *assigneeId*
of the live entity, for every sequence of successful patch/assign requests.
The final *resolution* is not reconstructible: no event payload records it
(see the counterexample, where two runs emit identical event sequences but
end with different resolutions). -/
theorem ticket_event_replay_roundtrip :
    ∀ (users : List User) (creator : User) (payload : TicketIn) (now : Int) (tid : String)
      (ops : List TicketOp),
      (replay_ticket_events ((create_ticket creator payload now tid).2 ::
          (run_ticket_ops users (create_ticket creator payload now tid).1 ops).2)).status
        = (run_ticket_ops users (create_ticket creator payload now tid).1 ops).1.status
      ∧ (replay_ticket_events ((create_ticket creator payload now tid).2 ::
          (run_ticket_ops users (create_ticket creator payload now tid).1 ops).2)).assigneeId
        = (run_ticket_ops users (create_ticket creator payload now tid).1 ops).1.assignee_id := by
  intro users creator payload now tid ops
  exact replay_run_invariant users ops (create_ticket creator payload now tid).1
    (replay_step replay_init (create_ticket creator payload now tid).2) rfl rfl

/-- Counterexample for C5 as frozen: two runs — a patch storing resolution
"done" versus a patch storing "" — append literally identical TicketEvent
sequences, yet the live rows end with different resolutions; the replay of
that shared sequence yields the default "" and cannot reconstruct "done". -/
theorem ticket_event_replay_resolution_counterexample :
    ((create_ticket ⟨"r1", .admin⟩ ⟨"ti", "", .help, .low⟩ 0 "t1").2 ::
        (run_ticket_ops [] (create_ticket ⟨"r1", .admin⟩ ⟨"ti", "", .help, .low⟩ 0 "t1").1
          [.patch ⟨"a1", .admin⟩ ⟨none, none, "done", none, none⟩ 5 "iso" (fun _ => "x")]).2)
      = ((create_ticket ⟨"r1", .admin⟩ ⟨"ti", "", .help, .low⟩ 0 "t1").2 ::
          (run_ticket_ops [] (create_ticket ⟨"r1", .admin⟩ ⟨"ti", "", .help, .low⟩ 0 "t1").1
            [.patch ⟨"a1", .admin⟩ ⟨none, none, "", none, none⟩ 5 "iso" (fun _ => "x")]).2)
    ∧ (run_ticket_ops [] (create_ticket ⟨"r1", .admin⟩ ⟨"ti", "", .help, .low⟩ 0 "t1").1
        [.patch ⟨"a1", .admin⟩ ⟨none, none, "done", none, none⟩ 5 "iso"
          (fun _ => "x")]).1.resolution = "done"
    ∧ (run_ticket_ops [] (create_ticket ⟨"r1", .admin⟩ ⟨"ti", "", .help, .low⟩ 0 "t1").1
        [.patch ⟨"a1", .admin⟩ ⟨none, none, "", none, none⟩ 5 "iso"
          (fun _ => "x")]).1.resolution = ""
    ∧ (replay_ticket_events ((create_ticket ⟨"r1", .admin⟩ ⟨"ti", "", .help, .low⟩ 0 "t1").2 ::
        (run_ticket_ops [] (create_ticket ⟨"r1", .admin⟩ ⟨"ti", "", .help, .low⟩ 0 "t1").1
          [.patch ⟨"a1", .admin⟩ ⟨none, none, "done", none, none⟩ 5 "iso"
            (fun _ => "x")]).2)).resolution = ""
    ∧ ("done" : String) ≠ "" := by
  exact ⟨by decide, by decide, by decide, by decide, by decide⟩

/-- The `changes` comprehension is empty exactly when every tracked value
pair agrees. -/
theorem asset_changes_eq_nil_iff (previous current : List (String × String)) :
    asset_changes previous current = [] ↔
      ∀ pc ∈ List.zip previous current, pc.1.2 = pc.2.2 := by
  simp only [asset_changes, List.filterMap_eq_nil_iff]
  constructor
  · intro h pc hpc
    have hx := h pc hpc
    by_contra hne
    simp [hne] at hx
  · intro h pc hpc
    simp [h pc hpc]

/-- Claim C6: a successful asset update emits an `updated` AssetEvent with a
non-empty `changes` map iff at least one tracked field (qrCode, location,
serialNumber, category, manufacturer, model, supplier, status, assigned
user, condition, notes — the snapshot dict) differs between the prior and
the updated row; the event payload lists exactly the differing fields with
their before/after values, and a no-op update emits no event. -/
theorem asset_update_event_iff_changed :
    ∀ (actor : User) (item : Asset) (payload : AssetIn) (year : Nat) (now : Int)
      (a2 : Asset) (ev : Option AssetEvent),
      update_asset actor item payload year now = .ok (a2, ev) →
      ((ev.isSome ↔ ∃ pc ∈ List.zip (asset_update_snapshot item) (asset_update_snapshot a2),
          pc.1.2 ≠ pc.2.2)
        ∧ (∀ e, ev = some e →
            e = ⟨some actor.id, "updated",
                 asset_changes (asset_update_snapshot item) (asset_update_snapshot a2)⟩
            ∧ e.changes ≠ [])
        ∧ ((∀ pc ∈ List.zip (asset_update_snapshot item) (asset_update_snapshot a2),
              pc.1.2 = pc.2.2) → ev = none)) := by
  intro actor item payload year now a2 ev h
  simp only [update_asset] at h
  split at h
  · exact absurd h (by simp)
  · split at h
    · exact absurd h (by simp)
    · split at h
      · exact absurd h (by simp)
      · split at h
        · rename_i hne
          injection h with h
          injection h with h1 h2
          subst h1
          subst h2
          have hne' := hne
          simp only [ne_eq, asset_changes_eq_nil_iff] at hne
          push_neg at hne
          refine ⟨?_, ?_, ?_⟩
          · simpa using hne
          · intro e he
            injection he with he
            subst he
            exact ⟨rfl, hne'⟩
          · intro hall
            obtain ⟨pc, hpc, hnee⟩ := hne
            exact absurd (hall pc hpc) hnee
        · rename_i hnn
          have hceq := not_not.mp hnn
          injection h with h
          injection h with h1 h2
          subst h1
          subst h2
          refine ⟨?_, ?_, ?_⟩
          · simp only [Option.isSome_none, Bool.false_eq_true, false_iff]
            rintro ⟨pc, hpc, hnee⟩
            exact hnee ((asset_changes_eq_nil_iff _ _).mp hceq pc hpc)
          · intro e he
            exact absurd he (by simp)
          · intro _
            rfl

/-- Witness for C6: updating only the location of a concrete asset emits an
`updated` event whose changes are exactly `location: x → y`. -/
theorem asset_update_event_iff_changed_witness :
    ((some (⟨some "u1", "updated", [⟨"location", "x", "y"⟩]⟩ : AssetEvent)).isSome ↔
        ∃ pc ∈ List.zip
          (asset_update_snapshot ⟨"a1", "o1", "TDC-0001", "mo", "TDC-24-0001-A", "x", "SN", "c",
            "m", "mo", "s", "active", "Bob", none, none, "n", "Bob", "good", 0, 0⟩)
          (asset_update_snapshot ⟨"a1", "o1", "TDC-0001", "mo", "TDC-24-0001-A", "y", "SN", "c",
            "m", "mo", "s", "active", "Bob", none, none, "n", "Bob", "good", 0, 9⟩),
          pc.1.2 ≠ pc.2.2)
    ∧ (∀ e, (some (⟨some "u1", "updated", [⟨"location", "x", "y"⟩]⟩ : AssetEvent)) = some e →
        e = ⟨some "u1", "updated",
             asset_changes
               (asset_update_snapshot ⟨"a1", "o1", "TDC-0001", "mo", "TDC-24-0001-A", "x", "SN",
                 "c", "m", "mo", "s", "active", "Bob", none, none, "n", "Bob", "good", 0, 0⟩)
               (asset_update_snapshot ⟨"a1", "o1", "TDC-0001", "mo", "TDC-24-0001-A", "y", "SN",
                 "c", "m", "mo", "s", "active", "Bob", none, none, "n", "Bob", "good", 0, 9⟩)⟩
        ∧ e.changes ≠ [])
    ∧ ((∀ pc ∈ List.zip
          (asset_update_snapshot ⟨"a1", "o1", "TDC-0001", "mo", "TDC-24-0001-A", "x", "SN", "c",
            "m", "mo", "s", "active", "Bob", none, none, "n", "Bob", "good", 0, 0⟩)
          (asset_update_snapshot ⟨"a1", "o1", "TDC-0001", "mo", "TDC-24-0001-A", "y", "SN", "c",
            "m", "mo", "s", "active", "Bob", none, none, "n", "Bob", "good", 0, 9⟩),
          pc.1.2 = pc.2.2) →
        (some (⟨some "u1", "updated", [⟨"location", "x", "y"⟩]⟩ : AssetEvent)) = none) := by
  exact asset_update_event_iff_changed ⟨"u1", .admin⟩
    ⟨"a1", "o1", "TDC-0001", "mo", "TDC-24-0001-A", "x", "SN", "c", "m", "mo", "s", "active",
      "Bob", none, none, "n", "Bob", "good", 0, 0⟩
    ⟨"", "", "A", "y", "SN", "c", "m", "mo", "s", "active", "Bob", "good", "n"⟩ 2024 9
    ⟨"a1", "o1", "TDC-0001", "mo", "TDC-24-0001-A", "y", "SN", "c", "m", "mo", "s", "active",
      "Bob", none, none, "n", "Bob", "good", 0, 9⟩
    (some ⟨some "u1", "updated", [⟨"location", "x", "y"⟩]⟩) (by rfl)

/-- The max-scan fold of `build_next_asset_tag` computes the maximum of its
accumulator and all parsed suffixes. -/
theorem build_tag_fold_eq (tags : List String) :
    ∀ a : Nat,
      tags.foldl (fun highest tag =>
        match parse_asset_tag tag with
        | none => highest
        | some value => if highest < value then value else highest) a
      = max a ((tags.filterMap parse_asset_tag).foldr max 0) := by
  induction tags with
  | nil =>
    intro a
    simp
  | cons tag rest ih =>
    intro a
    simp only [List.foldl_cons, List.filterMap_cons]
    cases h : parse_asset_tag tag with
    | none =>
      simp only [h]
      exact ih a
    | some v =>
      simp only [h, List.foldr_cons]
      rw [ih]
      have hmax : (if a < v then v else a) = max a v := by
        split_ifs <;> omega
      rw [hmax, Nat.max_assoc]

/-- Every member of a list of naturals is bounded by its `foldr max 0`. -/
theorem mem_le_foldr_max (l : List Nat) :
    ∀ n ∈ l, n ≤ l.foldr max 0 := by
  induction l with
  | nil =>
    intro n hn
    exact absurd hn (by simp)
  | cons m rest ih =>
    intro n hn
    rcases List.mem_cons.mp hn with h | h
    · subst h
      exact Nat.le_max_left _ _
    · exact Nat.le_trans (ih n h) (Nat.le_max_right _ _)

/-- Claim C7: `build_next_asset_tag` scans all tags matching
`TDC-(\d{4,})` (case-insensitively, stripped), takes the maximum numeric
suffix over the whole table and returns `TDC-<max+1>` zero-padded to four
digits; the returned suffix is therefore strictly greater than every
existing matching suffix, and `TDC-0001, TDC-0007` yields `TDC-0008`. -/
theorem next_asset_tag_monotonic :
    (∀ tags : List String,
        build_next_asset_tag tags = "TDC-" ++ pad4 (spec_max_tag_suffix tags + 1))
    ∧ (∀ (tags : List String) (tag : String) (n : Nat),
        tag ∈ tags → parse_asset_tag tag = some n → n < spec_max_tag_suffix tags + 1)
    ∧ build_next_asset_tag ["TDC-0001", "TDC-0007"] = "TDC-0008" := by
  refine ⟨?_, ?_, ?_⟩
  · intro tags
    unfold build_next_asset_tag spec_max_tag_suffix
    rw [build_tag_fold_eq]
    simp
  · intro tags tag n htag hparse
    have hmem : n ∈ tags.filterMap parse_asset_tag :=
      List.mem_filterMap.mpr ⟨tag, htag, hparse⟩
    have := mem_le_foldr_max _ _ hmem
    unfold spec_max_tag_suffix
    omega
  · rfl

/-- Witness for C7: both existing suffixes 1 and 7 are strictly below the
allocated suffix bound for the table `[TDC-0001, TDC-0007]`. -/
theorem next_asset_tag_monotonic_witness :
    1 < spec_max_tag_suffix ["TDC-0001", "TDC-0007"] + 1
    ∧ 7 < spec_max_tag_suffix ["TDC-0001", "TDC-0007"] + 1 := by
  constructor
  · exact next_asset_tag_monotonic.2.1 ["TDC-0001", "TDC-0007"] "TDC-0001" 1
      (by decide) (by rfl)
  · exact next_asset_tag_monotonic.2.1 ["TDC-0001", "TDC-0007"] "TDC-0007" 7
      (by decide) (by rfl)

/-! ## Claim C9: audit payload sanitization -/

/-- Characters that JSON string encoding expands to a two-character
backslash escape. -/
def is_json_escaped (c : Char) : Bool := c == '"' || c == '\\'

/-- Complement of `is_json_escaped`. -/
def not_json_escaped (c : Char) : Bool := ! is_json_escaped c

set_option maxHeartbeats 1000000 in
/-- Every character escapes to at least one output character. -/
theorem escape_char_length_pos (c : Char) : 1 ≤ (escape_char c).length := by
  unfold escape_char
  split_ifs <;> simp [hex4]

/-- Quotes and backslashes escape to at least two output characters. -/
theorem escape_char_length_lb (c : Char) :
    (if is_json_escaped c then 1 else 0) + 1 ≤ (escape_char c).length := by
  by_cases h : is_json_escaped c = true
  · have hc : c = '"' ∨ c = '\\' := by simpa [is_json_escaped] using h
    rcases hc with rfl | rfl
    · rw [if_pos h]
      have h2 : (escape_char '"').length = 2 := by rfl
      omega
    · rw [if_pos h]
      have h2 : (escape_char '\\').length = 2 := by rfl
      omega
  · rw [if_neg h]
    have h1 : 1 ≤ (escape_char c).length := escape_char_length_pos c
    omega

/-- Escaping a concatenation escapes the parts. -/
theorem escape_string_append (l1 l2 : List Char) :
    escape_string (l1 ++ l2) = escape_string l1 ++ escape_string l2 := by
  induction l1 with
  | nil => rfl
  | cons c l ih => simp only [List.cons_append, escape_string, ih, List.append_assoc, List.append_eq]

/-- A character list splits into its escaped and plain characters. -/
theorem countP_split_esc (l : List Char) :
    l.length = l.countP is_json_escaped + l.countP not_json_escaped := by
  induction l with
  | nil => rfl
  | cons c l ih =>
    simp only [List.countP_cons, List.length_cons, ih]
    cases h : is_json_escaped c <;> simp [not_json_escaped, h] <;> omega

/-- Lower bound on the escaped length: one output character per input
character plus one extra per quote or backslash. -/
theorem escape_string_length_lb (l : List Char) :
    l.length + l.countP is_json_escaped ≤ (escape_string l).length := by
  induction l with
  | nil => simp [escape_string]
  | cons c l ih =>
    simp only [escape_string, List.length_append, List.length_cons, List.countP_cons]
    have hc := escape_char_length_lb c
    cases h : is_json_escaped c <;> simp only [h, if_true, if_false] at hc ⊢ <;> omega

/-- Escaping a run of `n` quotes yields exactly `2n` characters. -/
theorem escape_rep_quote_len (n : Nat) :
    (escape_string (List.replicate n '"')).length = 2 * n := by
  induction n with
  | zero => rfl
  | succ m ih =>
    rw [List.replicate_succ]
    have hq : escape_char '"' = ['\\', '"'] := by rfl
    simp only [escape_string, List.length_append, ih, hq]
    simp
    omega

/-- Every character of an escaped quote run is a quote or backslash. -/
theorem escape_rep_quote_mem (n : Nat) :
    ∀ c ∈ escape_string (List.replicate n '"'), is_json_escaped c = true := by
  induction n with
  | zero => simp [escape_string, List.replicate]
  | succ m ih =>
    rw [List.replicate_succ]
    intro c hc
    have hq : escape_char '"' = ['\\', '"'] := by rfl
    simp only [escape_string, hq] at hc
    rcases List.mem_append.mp hc with h | h
    · rcases List.mem_cons.mp h with rfl | h
      · rfl
      · rcases List.mem_singleton.mp h with rfl
        rfl
    · exact ih c h

/-- The 500-quote string value used in the oversized audit payload. -/
def q500 : List Char := List.replicate 500 '"'

/-- Four 500-quote string fields: each value is short enough to survive
per-value sanitization untouched, yet the serialized JSON is 4036
characters, beyond `AUDIT_PAYLOAD_JSON_MAX`. -/
def bigPayload : List (List Char × Json) :=
  [("a".toList, .str q500), ("b".toList, .str q500),
   ("c".toList, .str q500), ("d".toList, .str q500)]

set_option maxRecDepth 4000

/-- Sanitization leaves the oversized payload untouched. -/
theorem sanitize_bigPayload : sanitize_fuel 5 (Json.obj bigPayload) = Json.obj bigPayload := by
  rfl


/-- The serialized oversized payload is 4036 characters long. -/
theorem bigPayload_raw_len : (json_dumps (Json.obj bigPayload)).length = 4036 := by
  have hv : (encode_json_string q500).length = 1002 := by
    simp only [encode_json_string, List.length_cons, List.length_append, q500,
      escape_rep_quote_len, List.length_nil]
  have ha : (encode_json_string "a".toList).length = 3 := by rfl
  have hb : (encode_json_string "b".toList).length = 3 := by rfl
  have hc : (encode_json_string "c".toList).length = 3 := by rfl
  have hd : (encode_json_string "d".toList).length = 3 := by rfl
  simp only [bigPayload, json_dumps, json_dumps_fields, List.length_append, List.length_cons,
    ha, hb, hc, hd, hv]
  rfl

/-- Only 20 characters of the serialized oversized payload are neither
quote nor backslash. -/
theorem bigPayload_raw_nonesc :
    (json_dumps (Json.obj bigPayload)).countP not_json_escaped = 20 := by
  have hq : (escape_string (List.replicate 500 '"')).countP not_json_escaped = 0 := by
    rw [List.countP_eq_zero]
    intro c hcm
    simp [not_json_escaped, escape_rep_quote_mem 500 c hcm]
  have hv : (encode_json_string q500).countP not_json_escaped = 0 := by
    simp only [encode_json_string, q500, List.countP_cons, List.countP_append, hq,
      List.countP_nil]
    rfl
  have hka : (encode_json_string "a".toList).countP not_json_escaped = 1 := by rfl
  have hkb : (encode_json_string "b".toList).countP not_json_escaped = 1 := by rfl
  have hkc : (encode_json_string "c".toList).countP not_json_escaped = 1 := by rfl
  have hkd : (encode_json_string "d".toList).countP not_json_escaped = 1 := by rfl
  simp only [bigPayload, json_dumps, json_dumps_fields, List.countP_cons, List.countP_append,
    List.countP_nil, hv, hka, hkb, hkc, hkd]
  rfl


/-- Generic bound: serializing the `{truncated, preview}` wrapper around a
3936-character prefix of an escape-heavy 4036-character string exceeds
4000 characters, because every quote/backslash doubles again. -/
theorem wrapper_length_lb (raw : List Char) (h20 : raw.countP not_json_escaped ≤ 20)
    (hlen : raw.length = 4036) :
    4000 < (json_dumps (Json.obj [("truncated".toList, Json.bool true),
        ("preview".toList, Json.str (raw.take 3936 ++ "...".toList))])).length := by
  simp only [json_dumps, json_dumps_fields, encode_json_string, List.length_cons,
    List.length_append, if_true]
  rw [escape_string_append]
  have htl : (raw.take 3936).length = 3936 := by
    rw [List.length_take]
    omega
  have hsplit := countP_split_esc (raw.take 3936)
  have hsub : (raw.take 3936).countP not_json_escaped ≤ 20 :=
    le_trans (List.Sublist.countP_le not_json_escaped (List.take_sublist 3936 raw)) h20
  have hlb := escape_string_length_lb (raw.take 3936)
  have hdots : (escape_string "...".toList).length = 3 := by rfl
  have hrest : (escape_string "truncated".toList).length = 9 := by rfl
  have hrest2 : (escape_string "preview".toList).length = 7 := by rfl
  have hsep : (": ".toList).length = 2 := by rfl
  have hcom : (", ".toList).length = 2 := by rfl
  have htrue : ("true".toList).length = 4 := by rfl
  simp only [hdots, hrest, hrest2, hsep, hcom, htrue, List.length_nil, List.length_append]
  omega

/-- Counterexample for C9 as frozen: the oversized payload's sanitized JSON
has 4036 > 4000 characters, so it is replaced by the `{truncated, preview}`
wrapper - but the wrapper re-escapes the quote-heavy preview and its own
serialized form also exceeds the 4000-character cap. -/
theorem audit_wrapper_exceeds_cap_counterexample :
    AUDIT_PAYLOAD_JSON_MAX < (json_dumps (sanitize_fuel 5 (Json.obj bigPayload))).length
    ∧ AUDIT_PAYLOAD_JSON_MAX < (sanitize_audit_payload (some bigPayload)).length := by
  have hraw : (json_dumps (sanitize_fuel 5 (Json.obj bigPayload))).length = 4036 := by
    rw [sanitize_bigPayload, bigPayload_raw_len]
  have h20 : (json_dumps (sanitize_fuel 5 (Json.obj bigPayload))).countP not_json_escaped ≤ 20 := by
    rw [sanitize_bigPayload, bigPayload_raw_nonesc]
  constructor
  · rw [hraw]
    decide
  · have hgate : ¬ (json_dumps (sanitize_fuel 5 (Json.obj bigPayload))).length ≤
        AUDIT_PAYLOAD_JSON_MAX := by
      rw [hraw]
      decide
    simp only [sanitize_audit_payload, Option.getD_some, if_neg hgate]
    have hpre : truncate_text (json_dumps (sanitize_fuel 5 (Json.obj bigPayload)))
        (AUDIT_PAYLOAD_JSON_MAX - 64)
        = (json_dumps (sanitize_fuel 5 (Json.obj bigPayload))).take 3936 ++ "...".toList := by
      rw [truncate_text, if_neg]
      · rfl
      · rw [hraw]
        decide
    rw [hpre]
    exact wrapper_length_lb _ h20 hraw


/-- Claim C9 (amended): string values are truncated to 500 characters plus
an ellipsis, lists are capped at 30 elements, values nested beyond depth 4
are replaced by the `[depth-truncated]` marker, and a payload whose
sanitized serialized JSON exceeds 4000 characters is replaced by the
`{truncated: true, preview: ...}` wrapper whose preview is that
serialization truncated at 3936 characters plus an ellipsis.  The wrapper
is serialized with JSON string escaping and is NOT guaranteed to stay
within the 4000-character cap (see the counterexample). -/
theorem audit_payload_sanitization_spec :
    (∀ (s : List Char) (fuel : Nat),
        sanitize_fuel (fuel + 1) (.str s) = .str (truncate_text s AUDIT_PAYLOAD_STR_MAX))
    ∧ (∀ s : List Char, AUDIT_PAYLOAD_STR_MAX < s.length →
        truncate_text s AUDIT_PAYLOAD_STR_MAX = s.take 500 ++ "...".toList
        ∧ (truncate_text s AUDIT_PAYLOAD_STR_MAX).length = 503)
    ∧ (∀ (items : List Json) (fuel : Nat),
        sanitize_fuel (fuel + 1) (.arr items)
          = .arr ((items.take 30).map (fun item => sanitize_fuel fuel item))
        ∧ ((items.take 30).map (fun item => sanitize_fuel fuel item)).length ≤ 30)
    ∧ (∀ (v : Json) (depth : Nat), 4 < depth →
        sanitize_audit_value v depth = .str "[depth-truncated]".toList)
    ∧ (∀ payload : List (List Char × Json),
        AUDIT_PAYLOAD_JSON_MAX < (json_dumps (sanitize_fuel 5 (.obj payload))).length →
        sanitize_audit_payload (some payload)
          = json_dumps (.obj [("truncated".toList, .bool true),
              ("preview".toList,
               .str (truncate_text (json_dumps (sanitize_fuel 5 (.obj payload)))
                 (AUDIT_PAYLOAD_JSON_MAX - 64)))])) := by
  refine ⟨?_, ?_, ?_, ?_, ?_⟩
  · intro s fuel
    rfl
  · intro s hlen
    simp only [AUDIT_PAYLOAD_STR_MAX] at hlen ⊢
    have hneg : ¬ s.length ≤ 500 := by omega
    constructor
    · rw [truncate_text]
      simp only [AUDIT_PAYLOAD_STR_MAX, if_neg hneg]
    · rw [truncate_text]
      simp only [AUDIT_PAYLOAD_STR_MAX, if_neg hneg, List.length_append, List.length_take]
      have h3 : ("...".toList).length = 3 := by rfl
      rw [h3]
      omega
  · intro items fuel
    refine ⟨rfl, ?_⟩
    simp only [List.length_map, List.length_take]
    omega
  · intro v depth hd
    unfold sanitize_audit_value
    have h0 : 5 - depth = 0 := by omega
    rw [h0]
    rfl
  · intro payload hbig
    have hgate : ¬ (json_dumps (sanitize_fuel 5 (Json.obj payload))).length ≤
        AUDIT_PAYLOAD_JSON_MAX := by omega
    simp only [sanitize_audit_payload, Option.getD_some, if_neg hgate]

/-- Witness for C9 (amended): the rules applied at concrete inputs - a
501-character string truncates to 503 characters, an integer nested at
depth 5 becomes the marker, and the oversized payload becomes the
truncated-preview wrapper. -/
theorem audit_payload_sanitization_spec_witness :
    (truncate_text (List.replicate 501 'a') AUDIT_PAYLOAD_STR_MAX
        = (List.replicate 501 'a').take 500 ++ "...".toList
      ∧ (truncate_text (List.replicate 501 'a') AUDIT_PAYLOAD_STR_MAX).length = 503)
    ∧ sanitize_audit_value (.int 7) 5 = .str "[depth-truncated]".toList
    ∧ sanitize_audit_payload (some bigPayload)
        = json_dumps (.obj [("truncated".toList, .bool true),
            ("preview".toList,
             .str (truncate_text (json_dumps (sanitize_fuel 5 (.obj bigPayload)))
               (AUDIT_PAYLOAD_JSON_MAX - 64)))]) := by
  refine ⟨?_, ?_, ?_⟩
  · exact audit_payload_sanitization_spec.2.1 (List.replicate 501 'a')
      (by rw [List.length_replicate]; decide)
  · exact audit_payload_sanitization_spec.2.2.2.1 (.int 7) 5 (by omega)
  · exact audit_payload_sanitization_spec.2.2.2.2 bigPayload
      (by rw [sanitize_bigPayload, bigPayload_raw_len]; decide)

end WorkPlatform
